import Mathlib

/-!
Verification of the pinchchat gateway client and device identity layer.

The definitions below are a shallow embedding of the TypeScript source:

* `GatewayClient` (src/src/components/ChatInput.tsx): a WebSocket client
  with request/response matching by id, reconnect with exponential
  backoff and jitter, a connect handshake with a NOT_PAIRED pairing
  path, and a single-slot status listener.  The mutable class instance
  becomes the state record `GWState`; each handler or method becomes a
  function from state to state plus observable outputs (promise
  settlements and status notifications).  Timers are modelled
  explicitly: the reconnect timer as an optional delay stored in the
  state, request timeout timers as a log of started timers whose expiry
  is a separate transition.  The jitter `Math.random()` becomes a
  rational parameter `r` with `0 ≤ r < 1`.
* `deviceIdentity` (src/unnamed/part_007): Ed25519 keypair creation,
  fingerprinting and the canonical signed payload builder.  Web Crypto
  primitives (key generation, raw SPKI export, SHA-256) are abstracted
  into a `CryptoOracle` parameter; the deterministic encoding helpers
  (hex, base64url) and the storage logic are embedded directly.
-/

namespace Pinch

/-- JSON-like values carried in gateway payloads and errors.  An object
is a field list; a rejection can also be a bare string. -/
inductive JsonV where
  | str : String → JsonV
  | obj : List (String × JsonV) → JsonV

/-- A value a promise is rejected with: either a JS `Error` instance
carrying a message, or a plain JSON value / string. -/
inductive Reject where
  | errObj : String → Reject
  | json : JsonV → Reject

/-- How a pending request promise was settled. -/
inductive Settlement where
  | resolved : JsonV → Settlement
  | rejected : Reject → Settlement

/-- An incoming `res` frame: `{type:'res', id, ok, payload?, error?}`. -/
structure ResMsg where
  id : String
  ok : Bool
  payload : Option JsonV
  error : Option String

/-- Connection status reported to the status listener. -/
inductive GatewayStatus where
  | disconnected | connecting | connected | pairing
deriving DecidableEq

/-- WebSocket ready states; `opened` is `WebSocket.OPEN`. -/
inductive WsReadyState where
  | connecting | opened | closing | closed
deriving DecidableEq

/-- The socket: its ready state and the frames written to it. -/
structure Socket where
  readyState : WsReadyState
  sent : List String
deriving DecidableEq

/-- State of a `GatewayClient` instance.  `pending` holds the ids of the
`pendingRequests` map (insertion order); `reqTimers` logs the request
timeout timers started, with their delay in ms; `reconnectTimer` holds
the delay of the scheduled reconnect when one is pending; `status` is
the last status pushed to `_onStatus`; `statusListener` is the single
`_onStatus` slot, listeners being named by numbers. -/
structure GWState where
  ws : Option Socket
  pending : List String
  reqTimers : List (String × Nat)
  reconnectTimer : Option ℚ
  reconnectAttempts : Nat
  connected : Bool
  autoReconnect : Bool
  status : GatewayStatus
  statusListener : Option Nat

/-- `isConnected` getter. -/
def GWState.isConnected (st : GWState) : Bool := st.connected

/-- `onStatus(fn)`: the code stores the listener in the single field
`_onStatus`, replacing whatever was there. -/
def onStatus (st : GWState) (l : Nat) : GWState := { st with statusListener := some l }

/-- Push a status: record it and notify the current listener, if any.
The output lists which listener observed which status. -/
def emitStatus (st : GWState) (s : GatewayStatus) : GWState × List (Nat × GatewayStatus) :=
  ({ st with status := s },
   match st.statusListener with
   | some l => [(l, s)]
   | none => [])

/-- `msg.payload ?? msg.error ?? 'unknown error'`: the value a `res`
with `ok:false` rejects with. -/
def rejectValue (m : ResMsg) : Reject :=
  match m.payload with
  | some p => Reject.json p
  | none =>
    match m.error with
    | some e => Reject.json (JsonV.str e)
    | none => Reject.json (JsonV.str "unknown error")

/-- The settlement a `res` frame produces: `ok:true` resolves with
`msg.payload ?? {}`, `ok:false` rejects with `rejectValue`. -/
def settleOf (m : ResMsg) : Settlement :=
  if m.ok then Settlement.resolved (m.payload.getD (JsonV.obj []))
  else Settlement.rejected (rejectValue m)

/-- The `onmessage` branch for `type === 'res' && msg.id`: look up the
pending entry by id; if present, delete it and settle its promise; a
frame whose id is empty or matches no pending entry does nothing. -/
def handleRes (st : GWState) (m : ResMsg) : GWState × List (String × Settlement) :=
  if m.id ≠ "" ∧ m.id ∈ st.pending then
    ({ st with pending := st.pending.erase m.id }, [(m.id, settleOf m)])
  else (st, [])

/-- Deliver a sequence of `res` frames, accumulating settlements. -/
def runRes (st : GWState) : List ResMsg → GWState × List (String × Settlement)
  | [] => (st, [])
  | m :: ms =>
    let one := handleRes st m
    let rest := runRes one.1 ms
    (rest.1, one.2 ++ rest.2)

/-- `Math.min(1000 * Math.pow(2, attempts), 30000)`. -/
def reconnectBase (attempts : Nat) : ℚ := min (1000 * 2 ^ attempts) 30000

/-- `base + Math.random() * base * 0.3` with `r` the random draw. -/
def reconnectDelay (attempts : Nat) (r : ℚ) : ℚ :=
  reconnectBase attempts + r * reconnectBase attempts * (3 / 10)

/-- `scheduleReconnect()`: a no-op when a timer is already pending;
otherwise store the jittered delay and increment the attempt counter. -/
def scheduleReconnect (st : GWState) (r : ℚ) : GWState :=
  match st.reconnectTimer with
  | some _ => st
  | none =>
    { st with reconnectTimer := some (reconnectDelay st.reconnectAttempts r),
              reconnectAttempts := st.reconnectAttempts + 1 }

/-- The `onclose` handler: null the socket, clear `connected`, notify
`disconnected`, reject every pending request with `Error('disconnected')`,
clear the pending map, and schedule a reconnect when `autoReconnect`
still holds.  Returns (state, settlements, notifications). -/
def onClose (st : GWState) (r : ℚ) :
    GWState × List (String × Settlement) × List (Nat × GatewayStatus) :=
  let st1 := { st with ws := none, connected := false }
  let em := emitStatus st1 GatewayStatus.disconnected
  let rejections := em.1.pending.map
    (fun i => (i, Settlement.rejected (Reject.errObj "disconnected")))
  let st2 := { em.1 with pending := [] }
  let st3 := if st2.autoReconnect then scheduleReconnect st2 r else st2
  (st3, rejections, em.2)

/-- The NOT_PAIRED test in the handshake catch:
`errObj && (errObj.code === 'NOT_PAIRED' || (typeof errObj.message === 'string'
&& errObj.message.includes('NOT_PAIRED')))`.  A JS `Error` has no `code`
field and its `message` is the constructor string; a bare string has
neither field. -/
def charsInclude (pat : List Char) : List Char → Bool
  | [] => pat.isEmpty
  | c :: cs => pat.isPrefixOf (c :: cs) || charsInclude pat cs

/-- `s.includes(pat)` on JS strings. -/
def strIncludes (s pat : String) : Bool := charsInclude pat.data s.data

/-- Whether a rejection value passes the NOT_PAIRED check. -/
def errHasNotPaired : Reject → Bool
  | Reject.errObj msg => strIncludes msg "NOT_PAIRED"
  | Reject.json (JsonV.str _) => false
  | Reject.json (JsonV.obj fs) =>
    (match fs.lookup "code" with
     | some (JsonV.str c) => c == "NOT_PAIRED"
     | _ => false) ||
    (match fs.lookup "message" with
     | some (JsonV.str m) => strIncludes m "NOT_PAIRED"
     | _ => false)

/-- `disconnect()`: disable auto-reconnect, zero the attempt counter,
cancel any scheduled reconnect, close and null the socket, clear
`connected`, notify `disconnected`. -/
def disconnectClient (st : GWState) : GWState × List (Nat × GatewayStatus) :=
  emitStatus
    { st with autoReconnect := false, reconnectAttempts := 0,
              reconnectTimer := none, ws := none, connected := false }
    GatewayStatus.disconnected

/-- The handshake catch branch: NOT_PAIRED keeps everything (socket,
auto-reconnect) and only pushes `pairing`; any other rejection disables
auto-reconnect and runs `disconnect()`. -/
def handleChallengeCatch (st : GWState) (e : Reject) :
    GWState × List (Nat × GatewayStatus) :=
  if errHasNotPaired e then emitStatus st GatewayStatus.pairing
  else disconnectClient { st with autoReconnect := false }

/-- The handshake success branch: set `connected`, reset the attempt
counter, notify `connected`. -/
def handleChallengeSuccess (st : GWState) : GWState × List (Nat × GatewayStatus) :=
  emitStatus { st with connected := true, reconnectAttempts := 0 }
    GatewayStatus.connected

/-- `connect()`: a no-op when a socket exists; otherwise enable
auto-reconnect, notify `connecting`, and open a fresh socket. -/
def connectClient (st : GWState) : GWState × List (Nat × GatewayStatus) :=
  match st.ws with
  | some _ => (st, [])
  | none =>
    let em := emitStatus { st with autoReconnect := true } GatewayStatus.connecting
    ({ em.1 with ws := some { readyState := WsReadyState.connecting, sent := [] } }, em.2)

/-- The request timeout in milliseconds: `setTimeout(..., 30000)`. -/
def requestTimeoutMs : Nat := 30000

/-- Whether the socket exists and is in the OPEN state. -/
def socketOpen (st : GWState) : Bool :=
  match st.ws with
  | some s => s.readyState == WsReadyState.opened
  | none => false

/-- Outcome of a `request()` call as seen by the caller. -/
inductive ReqOutcome where
  | rejectedNow : Reject → ReqOutcome
  | sent : ReqOutcome

/-- `request(id, method, params)`: reject synchronously with
`Error('not connected')` when the socket is absent or not OPEN
(creating no pending entry, writing nothing, starting no timer);
otherwise record the pending entry, write the frame, and start a
30-second timeout timer. -/
def request (st : GWState) (id frame : String) : GWState × ReqOutcome :=
  match st.ws with
  | none => (st, ReqOutcome.rejectedNow (Reject.errObj "not connected"))
  | some sock =>
    if sock.readyState ≠ WsReadyState.opened then
      (st, ReqOutcome.rejectedNow (Reject.errObj "not connected"))
    else
      ({ st with ws := some { sock with sent := sock.sent ++ [frame] },
                 pending := st.pending ++ [id],
                 reqTimers := st.reqTimers ++ [(id, requestTimeoutMs)] },
       ReqOutcome.sent)

/-- Expiry of a request timeout timer: when the entry is still pending,
delete it and reject with `Error('timeout')`; otherwise the callback
does nothing at all. -/
def onRequestTimeout (st : GWState) (id : String) :
    GWState × List (String × Settlement) :=
  if id ∈ st.pending then
    ({ st with pending := st.pending.erase id },
     [(id, Settlement.rejected (Reject.errObj "timeout"))])
  else (st, [])

/-- Events that can act on a client instance.  `callConnect` and
`callDisconnect` are the public methods; `wsOpen`/`wsClose` are socket
callbacks (`wsClose` carries the jitter draw used if a reconnect gets
scheduled); `resMsg` is an incoming `res` frame; `handshakeOk` and
`handshakeErr` are the resumption of `handleChallenge` after the
connect request settles; `timerFire` is the reconnect timer expiring;
`callRequest` is a `request()` call; `reqTimeout` is a request timeout
expiring. -/
inductive GWEvent where
  | callConnect : GWEvent
  | callDisconnect : GWEvent
  | wsOpen : GWEvent
  | wsClose : ℚ → GWEvent
  | resMsg : ResMsg → GWEvent
  | handshakeOk : GWEvent
  | handshakeErr : Reject → GWEvent
  | timerFire : GWEvent
  | callRequest : String → String → GWEvent
  | reqTimeout : String → GWEvent

/-- Whether an event is a `connect()` call. -/
def GWEvent.isConnectCall : GWEvent → Bool
  | GWEvent.callConnect => true
  | _ => false

/-- One step of the client.  `resMsg` and `handshakeOk` require a live
socket: frames only arrive on one, and the connect request only
resolves through such a frame.  `handshakeErr` is unguarded because the
connect request can also be rejected by a timeout or a close after the
socket is gone.  `timerFire` only acts when a timer is pending; the
firing timer clears its own slot before `connect()` runs. -/
def step (st : GWState) : GWEvent → GWState
  | GWEvent.callConnect => (connectClient st).1
  | GWEvent.callDisconnect => (disconnectClient st).1
  | GWEvent.wsOpen =>
    match st.ws with
    | some s => { st with ws := some { s with readyState := WsReadyState.opened } }
    | none => st
  | GWEvent.wsClose r => (onClose st r).1
  | GWEvent.resMsg m => if st.ws.isSome then (handleRes st m).1 else st
  | GWEvent.handshakeOk => if st.ws.isSome then (handleChallengeSuccess st).1 else st
  | GWEvent.handshakeErr e => (handleChallengeCatch st e).1
  | GWEvent.timerFire =>
    match st.reconnectTimer with
    | some _ => (connectClient { st with reconnectTimer := none }).1
    | none => st
  | GWEvent.callRequest id frame => (request st id frame).1
  | GWEvent.reqTimeout id => (onRequestTimeout st id).1

/-- Run a sequence of events. -/
def runEvents (st : GWState) : List GWEvent → GWState
  | [] => st
  | e :: es => runEvents (step st e) es

/-- The resting state `disconnect()` leaves behind: retries are off, no
timer is pending, the socket is gone, and the attempt counter is zero. -/
def quiesced (st : GWState) : Prop :=
  st.autoReconnect = false ∧ st.reconnectTimer = none ∧ st.ws = none ∧
  st.connected = false ∧ st.reconnectAttempts = 0

/-- `buildDeviceAuthPayload` (src/unnamed/part_007): the version tag is
`v2` exactly when the nonce is truthy (present and non-empty); fields
are pipe-joined; a `v2` payload appends `nonce ?? ''` last.  `none`
covers both an omitted/undefined and a null nonce. -/
def jsTruthyStr : Option String → Bool
  | none => false
  | some s => s ≠ ""

/-- The canonical signed payload for the connect handshake. -/
def buildDeviceAuthPayload (deviceId clientId clientMode role : String)
    (scopes : List String) (signedAtMs : Nat)
    (token : Option String) (nonce : Option String) : String :=
  let version := if jsTruthyStr nonce then "v2" else "v1"
  let scopesStr := String.intercalate "," scopes
  let tokenStr := token.getD ""
  let base := [version, deviceId, clientId, clientMode, role, scopesStr,
               toString signedAtMs, tokenStr]
  let full := if jsTruthyStr nonce then base ++ [nonce.getD ""] else base
  String.intercalate "|" full

/-- A lowercase hex digit for a value below 16: `0`..`9` then `a`..`f`,
as produced by `Number.prototype.toString(16)`. -/
def hexDigitChar (n : Nat) : Char :=
  if n < 10 then Char.ofNat (48 + n) else Char.ofNat (87 + n)

/-- `b.toString(16).padStart(2, '0')` for a byte. -/
def byteToHex (b : Nat) : String :=
  String.mk [hexDigitChar (b / 16), hexDigitChar (b % 16)]

/-- `bufToHex`: hex-encode a byte buffer (map then join). -/
def bufToHex (bs : List Nat) : String := String.join (bs.map byteToHex)

/-- Whether a character is a lowercase hex digit. -/
def isLowerHexChar (c : Char) : Bool := c ∈ "0123456789abcdef".data

/-- The base64url alphabet: the `btoa` alphabet after the source's
replacement of `+` with `-` and `/` with `_`. -/
def b64Chars : List Char :=
  "ABCDEFGHIJKLMNOPQRSTUVWXYZabcdefghijklmnopqrstuvwxyz0123456789-_".data

/-- Character for a 6-bit group. -/
def b64c (n : Nat) : Char := b64Chars.getD n 'A'

/-- Base64url without padding, as `bufToBase64Url` produces via `btoa`
plus character replacement and `=`-stripping. -/
def base64UrlChars : List Nat → List Char
  | [] => []
  | [b1] => [b64c (b1 / 4), b64c (b1 % 4 * 16)]
  | [b1, b2] => [b64c (b1 / 4), b64c (b1 % 4 * 16 + b2 / 16), b64c (b2 % 16 * 4)]
  | b1 :: b2 :: b3 :: rest =>
    b64c (b1 / 4) :: b64c (b1 % 4 * 16 + b2 / 16) ::
    b64c (b2 % 16 * 4 + b3 / 64) :: b64c (b3 % 64) :: base64UrlChars rest

/-- `bufToBase64Url`. -/
def bufToBase64Url (bs : List Nat) : String := String.mk (base64UrlChars bs)

/-- An Ed25519 keypair, abstractly: keys are named by numbers. -/
structure KeyPair where
  pub : Nat
  priv : Nat
deriving DecidableEq

/-- Web Crypto primitives abstracted: `genKey` mints the keypair a
given `generateKey` call returns, `rawPub` is the raw 32-byte public
key (the SPKI export minus its 12-byte prefix), `sha256` the digest. -/
structure CryptoOracle where
  genKey : Nat → KeyPair
  rawPub : Nat → List Nat
  sha256 : List Nat → List Nat

/-- A serialized JWK: either a faithful export of a key or corrupted
data whose import fails. -/
inductive Jwk where
  | valid : Nat → Jwk
  | corrupt : Jwk
deriving DecidableEq

/-- `crypto.subtle.importKey('jwk', ...)`: succeeds exactly on faithful
exports. -/
def importKey : Jwk → Option Nat
  | Jwk.valid k => some k
  | Jwk.corrupt => none

/-- `crypto.subtle.exportKey('jwk', key)`. -/
def exportJwk (k : Nat) : Jwk := Jwk.valid k

/-- The persisted IndexedDB record (`StoredIdentity`). -/
structure StoredIdentity where
  version : Nat
  deviceId : String
  publicKeyRaw : String
  jwkPublic : Jwk
  jwkPrivate : Jwk
deriving DecidableEq

/-- The in-memory `DeviceIdentity`. -/
structure DeviceIdentity where
  id : String
  publicKeyRaw : String
  pubKey : Nat
  privKey : Nat
deriving DecidableEq

/-- `fingerprintKey`: lowercase-hex SHA-256 of the raw public key. -/
def fingerprintKey (c : CryptoOracle) (pub : Nat) : String :=
  bufToHex (c.sha256 (c.rawPub pub))

/-- The generate-and-persist tail of `getOrCreateDeviceIdentity`:
fresh keypair, raw export, base64url, fingerprint, serialize, write. -/
def freshIdentity (c : CryptoOracle) (seed : Nat) :
    DeviceIdentity × Option StoredIdentity :=
  let kp := c.genKey seed
  let raw := c.rawPub kp.pub
  let publicKeyRaw := bufToBase64Url raw
  let deviceId := fingerprintKey c kp.pub
  ({ id := deviceId, publicKeyRaw := publicKeyRaw,
     pubKey := kp.pub, privKey := kp.priv },
   some { version := 1, deviceId := deviceId, publicKeyRaw := publicKeyRaw,
          jwkPublic := exportJwk kp.pub, jwkPrivate := exportJwk kp.priv })

/-- `getOrCreateDeviceIdentity` against a store state: reuse a stored
`version === 1` record whose keys both import; on a missing record,
wrong version, or an import failure, fall through to generation.
Returns the identity and the resulting store contents. -/
def getOrCreateDeviceIdentity (c : CryptoOracle) (seed : Nat)
    (store : Option StoredIdentity) : DeviceIdentity × Option StoredIdentity :=
  match store with
  | some rec0 =>
    if rec0.version = 1 then
      match importKey rec0.jwkPrivate, importKey rec0.jwkPublic with
      | some priv, some pub =>
        ({ id := rec0.deviceId, publicKeyRaw := rec0.publicKeyRaw,
           pubKey := pub, privKey := priv }, some rec0)
      | _, _ => freshIdentity c seed
    else freshIdentity c seed
  | none => freshIdentity c seed

/-- Whether a store state fails the reuse test of
`getOrCreateDeviceIdentity` (absent, wrong version, or corrupted). -/
def storeUnusable : Option StoredIdentity → Prop
  | some rec0 =>
    rec0.version ≠ 1 ∨ importKey rec0.jwkPrivate = none ∨
    importKey rec0.jwkPublic = none
  | none => True

/-- A socket in the OPEN state with nothing written yet. -/
def sockOpenDemo : Socket := { readyState := WsReadyState.opened, sent := [] }

/-- A connected client with two requests in flight, used to instantiate
theorems at concrete inputs. -/
def stOpenDemo : GWState :=
  { ws := some sockOpenDemo, pending := ["a", "b"], reqTimers := [],
    reconnectTimer := none, reconnectAttempts := 0, connected := true,
    autoReconnect := true, status := GatewayStatus.connected,
    statusListener := some 7 }

/-- An idle, never-connected client. -/
def stIdleDemo : GWState :=
  { ws := none, pending := [], reqTimers := [], reconnectTimer := none,
    reconnectAttempts := 0, connected := false, autoReconnect := false,
    status := GatewayStatus.disconnected, statusListener := none }

/-- A concrete crypto oracle whose digests are byte lists. -/
def oracleDemo : CryptoOracle :=
  { genKey := fun seed => { pub := 2 * seed, priv := 2 * seed + 1 },
    rawPub := fun p => [p % 256, 17],
    sha256 := fun l => l.map (fun b => (b + 5) % 256) }

/-- C3: with the nonce omitted, null, or empty, `buildDeviceAuthPayload`
produces the pipe-joined `v1|deviceId|clientId|clientMode|role|scopes|
signedAtMs|token` payload; with any non-empty nonce it produces the
`v2`-tagged payload with the nonce appended as the final field; scopes
are comma-joined in input order; a null token serializes as an empty
field (the same payload as an empty-string token). -/
theorem c3_payload_version_tags (dId cId cMode role : String)
    (scopes : List String) (t : Nat) (token : Option String)
    (nonce : Option String) :
    ((nonce = none ∨ nonce = some "") →
      buildDeviceAuthPayload dId cId cMode role scopes t token nonce =
        "v1|" ++ dId ++ "|" ++ cId ++ "|" ++ cMode ++ "|" ++ role ++ "|" ++
        String.intercalate "," scopes ++ "|" ++ toString t ++ "|" ++
        token.getD "") ∧
    (∀ s : String, nonce = some s → s ≠ "" →
      buildDeviceAuthPayload dId cId cMode role scopes t token nonce =
        "v2|" ++ dId ++ "|" ++ cId ++ "|" ++ cMode ++ "|" ++ role ++ "|" ++
        String.intercalate "," scopes ++ "|" ++ toString t ++ "|" ++
        token.getD "" ++ "|" ++ s) ∧
    (buildDeviceAuthPayload dId cId cMode role scopes t none nonce =
      buildDeviceAuthPayload dId cId cMode role scopes t (some "") nonce) := by
  refine ⟨?_, ?_, ?_⟩
  · rintro (rfl | rfl) <;>
      simp [buildDeviceAuthPayload, jsTruthyStr, String.intercalate,
            String.intercalate.go, String.append_assoc]
  · rintro s rfl hs
    simp [buildDeviceAuthPayload, jsTruthyStr, hs, String.intercalate,
          String.intercalate.go, String.append_assoc]
  · simp [buildDeviceAuthPayload, jsTruthyStr]

/-- C3 witness: both version tags at concrete inputs. -/
theorem c3_payload_version_tags_witness :
    (buildDeviceAuthPayload "d" "c" "web" "op" ["r", "w"] 5 none none =
      "v1|" ++ "d" ++ "|" ++ "c" ++ "|" ++ "web" ++ "|" ++ "op" ++ "|" ++
      String.intercalate "," ["r", "w"] ++ "|" ++ toString (5 : Nat) ++ "|" ++
      (none : Option String).getD "") ∧
    (buildDeviceAuthPayload "d" "c" "web" "op" ["r", "w"] 5 (some "tok") (some "n") =
      "v2|" ++ "d" ++ "|" ++ "c" ++ "|" ++ "web" ++ "|" ++ "op" ++ "|" ++
      "r,w" ++ "|" ++ "5" ++ "|" ++ "tok" ++ "|" ++ "n") :=
  ⟨(c3_payload_version_tags "d" "c" "web" "op" ["r", "w"] 5 none none).1
      (Or.inl rfl),
   (c3_payload_version_tags "d" "c" "web" "op" ["r", "w"] 5 (some "tok")
      (some "n")).2.1 "n" rfl (by decide)⟩

/-- C9: a second `getOrCreateDeviceIdentity` call against the store the
first call left behind returns an identity with the same id; on a store
whose record is absent or fails the reuse test, the call returns the
freshly generated identity — whose id is the lowercase-hex SHA-256
digest of the raw public key — and writes the new record to the store
instead of throwing. -/
theorem c9_get_or_create_identity (c : CryptoOracle) (s1 s2 : Nat)
    (store : Option StoredIdentity) :
    ((getOrCreateDeviceIdentity c s2
        (getOrCreateDeviceIdentity c s1 store).2).1.id =
      (getOrCreateDeviceIdentity c s1 store).1.id) ∧
    (storeUnusable store →
      getOrCreateDeviceIdentity c s1 store = freshIdentity c s1 ∧
      (getOrCreateDeviceIdentity c s1 store).1.id =
        bufToHex (c.sha256 (c.rawPub (c.genKey s1).pub)) ∧
      (getOrCreateDeviceIdentity c s1 store).2 =
        some { version := 1,
               deviceId := (getOrCreateDeviceIdentity c s1 store).1.id,
               publicKeyRaw := bufToBase64Url (c.rawPub (c.genKey s1).pub),
               jwkPublic := exportJwk (c.genKey s1).pub,
               jwkPrivate := exportJwk (c.genKey s1).priv }) ∧
    (∀ b : Nat, b < 256 → (byteToHex b).data.all isLowerHexChar = true) := by
  refine ⟨?_, ?_, ?_⟩
  · rcases store with _ | ⟨v, did, pkr, jpub, jpriv⟩
    · simp [getOrCreateDeviceIdentity, freshIdentity, importKey, exportJwk]
    · by_cases hv : v = 1
      · subst hv
        cases jpriv <;> cases jpub <;>
          simp [getOrCreateDeviceIdentity, freshIdentity, importKey, exportJwk]
      · simp [getOrCreateDeviceIdentity, hv, freshIdentity, importKey,
              exportJwk]
  · intro hu
    have hfresh : getOrCreateDeviceIdentity c s1 store = freshIdentity c s1 := by
      rcases store with _ | ⟨v, did, pkr, jpub, jpriv⟩
      · simp [getOrCreateDeviceIdentity]
      · rcases hu with hv | hpriv | hpub
        · simp [getOrCreateDeviceIdentity, hv]
        · cases jpriv with
          | valid k => simp [importKey] at hpriv
          | corrupt =>
            by_cases hv : v = 1 <;>
              simp [getOrCreateDeviceIdentity, hv, importKey]
        · cases jpub with
          | valid k => simp [importKey] at hpub
          | corrupt =>
            cases jpriv <;> by_cases hv : v = 1 <;>
              simp [getOrCreateDeviceIdentity, hv, importKey]
    refine ⟨hfresh, ?_, ?_⟩
    · rw [hfresh]; simp [freshIdentity, fingerprintKey]
    · rw [hfresh]; simp [freshIdentity, fingerprintKey]
  · intro b hb
    have h1 : b / 16 < 16 := by omega
    have h2 : b % 16 < 16 := Nat.mod_lt b (by omega)
    have hlow : ∀ n : Nat, n < 16 → isLowerHexChar (hexDigitChar n) = true := by
      decide
    simp [byteToHex, List.all, hlow _ h1, hlow _ h2]

/-- C9 witness: concrete oracle, empty store, and a concrete byte. -/
theorem c9_get_or_create_identity_witness :
    ((getOrCreateDeviceIdentity oracleDemo 4
        (getOrCreateDeviceIdentity oracleDemo 3 none).2).1.id =
      (getOrCreateDeviceIdentity oracleDemo 3 none).1.id) ∧
    (getOrCreateDeviceIdentity oracleDemo 3 none = freshIdentity oracleDemo 3) ∧
    ((getOrCreateDeviceIdentity oracleDemo 3 none).1.id =
      bufToHex (oracleDemo.sha256 (oracleDemo.rawPub (oracleDemo.genKey 3).pub))) ∧
    ((byteToHex 171).data.all isLowerHexChar = true) :=
  ⟨(c9_get_or_create_identity oracleDemo 3 4 none).1,
   ((c9_get_or_create_identity oracleDemo 3 4 none).2.1 trivial).1,
   ((c9_get_or_create_identity oracleDemo 3 4 none).2.1 trivial).2.1,
   (c9_get_or_create_identity oracleDemo 3 4 none).2.2 171 (by decide)⟩

/-- Every settlement `runRes` produces names an initially pending id and
comes from a delivered frame with that id. -/
theorem runRes_settle_src (msgs : List ResMsg) (st : GWState) :
    ∀ p ∈ (runRes st msgs).2,
      p.1 ∈ st.pending ∧ ∃ m ∈ msgs, m.id = p.1 ∧ p.2 = settleOf m := by
  induction msgs generalizing st with
  | nil => intro p hp; simp [runRes] at hp
  | cons m ms ih =>
    intro p hp
    by_cases h : m.id ≠ "" ∧ m.id ∈ st.pending
    · simp only [runRes, handleRes, if_pos h, List.mem_append,
                 List.mem_singleton, List.cons_append, List.nil_append,
                 List.mem_cons] at hp
      rcases hp with rfl | hp
      · exact ⟨h.2, m, List.mem_cons_self m ms, rfl, rfl⟩
      · obtain ⟨hmem, m', hm', hid, hset⟩ := ih _ p hp
        exact ⟨List.erase_subset _ _ hmem, m', List.mem_cons_of_mem m hm',
               hid, hset⟩
    · simp only [runRes, handleRes, if_neg h, List.nil_append] at hp
      obtain ⟨hmem, m', hm', hid, hset⟩ := ih _ p hp
      exact ⟨hmem, m', List.mem_cons_of_mem m hm', hid, hset⟩

/-- With distinct pending ids, `runRes` settles each id at most once. -/
theorem runRes_settle_once (msgs : List ResMsg) (st : GWState)
    (hnd : st.pending.Nodup) (i : String) :
    ((runRes st msgs).2.countP (fun p => p.1 == i)) ≤ 1 := by
  induction msgs generalizing st with
  | nil => simp [runRes]
  | cons m ms ih =>
    by_cases h : m.id ≠ "" ∧ m.id ∈ st.pending
    · have hnd' : (st.pending.erase m.id).Nodup := hnd.erase m.id
      simp only [runRes, handleRes, if_pos h, List.cons_append,
                 List.nil_append, List.countP_cons]
      by_cases hi : m.id = i
      · subst hi
        have hzero :
            ((runRes { st with pending := st.pending.erase m.id } ms).2.countP
              (fun p => p.1 == m.id)) = 0 := by
          rw [List.countP_eq_zero]
          intro p hp
          have hmem := (runRes_settle_src ms _ p hp).1
          have hne : p.1 ≠ m.id :=
            ((List.Nodup.mem_erase_iff hnd).mp hmem).1
          simp [hne]
        simp [hzero]
      · have : ¬((m.id, settleOf m).1 == i) = true := by simp [hi]
        simp only [this, if_neg, reduceIte]
        exact ih _ hnd'
    · simp only [runRes, handleRes, if_neg h, List.nil_append]
      exact ih _ hnd

/-- C1: a `res` frame settles exactly the pending request whose id it
carries — resolving the payload on `ok:true`, rejecting with the payload
or error on `ok:false` — each request is settled at most once regardless
of arrival order and interleaving, and a frame matching no pending
request changes no state. -/
theorem c1_res_matched_by_id (st : GWState) (msgs : List ResMsg)
    (hnd : st.pending.Nodup) :
    (∀ p ∈ (runRes st msgs).2,
      p.1 ∈ st.pending ∧
      ∃ m ∈ msgs, m.id = p.1 ∧
        p.2 = (if m.ok then Settlement.resolved (m.payload.getD (JsonV.obj []))
               else Settlement.rejected (rejectValue m))) ∧
    (∀ i : String, ((runRes st msgs).2.countP (fun p => p.1 == i)) ≤ 1) ∧
    (∀ m : ResMsg, m.id ∉ st.pending → handleRes st m = (st, [])) := by
  refine ⟨runRes_settle_src msgs st, fun i => runRes_settle_once msgs st hnd i, ?_⟩
  intro m hm
  rw [handleRes, if_neg (fun hc => hm hc.2)]

/-- C1 witness: two pending requests, an out-of-order failure response,
an unmatched response, a success response, and a duplicate. -/
theorem c1_res_matched_by_id_witness :
    List.Nodup ["a", "b"] ∧
    ((∀ p ∈ (runRes stOpenDemo
        [{ id := "b", ok := false, payload := none, error := some "boom" },
         { id := "z", ok := true, payload := none, error := none },
         { id := "a", ok := true, payload := none, error := none },
         { id := "b", ok := true, payload := none, error := none }]).2,
      p.1 ∈ stOpenDemo.pending ∧
      ∃ m ∈ [{ id := "b", ok := false, payload := none, error := some "boom" },
             { id := "z", ok := true, payload := none, error := none },
             { id := "a", ok := true, payload := none, error := none },
             ({ id := "b", ok := true, payload := none, error := none } : ResMsg)],
        m.id = p.1 ∧
        p.2 = (if m.ok then Settlement.resolved (m.payload.getD (JsonV.obj []))
               else Settlement.rejected (rejectValue m))) ∧
    (∀ i : String, ((runRes stOpenDemo
        [{ id := "b", ok := false, payload := none, error := some "boom" },
         { id := "z", ok := true, payload := none, error := none },
         { id := "a", ok := true, payload := none, error := none },
         { id := "b", ok := true, payload := none, error := none }]).2.countP
          (fun p => p.1 == i)) ≤ 1) ∧
    (∀ m : ResMsg, m.id ∉ stOpenDemo.pending →
      handleRes stOpenDemo m = (stOpenDemo, []))) :=
  ⟨by decide,
   c1_res_matched_by_id stOpenDemo
     [{ id := "b", ok := false, payload := none, error := some "boom" },
      { id := "z", ok := true, payload := none, error := none },
      { id := "a", ok := true, payload := none, error := none },
      { id := "b", ok := true, payload := none, error := none }]
     (by decide)⟩

/-- C2: a handshake rejection passing the NOT_PAIRED test — an explicit
`code` field equal to `NOT_PAIRED`, or `NOT_PAIRED` as a substring of a
string `message` field — drives the status to `pairing` while the
socket and `autoReconnect` stay untouched; any other rejection disables
`autoReconnect`, closes the socket, and drives the status to
`disconnected`. -/
theorem c2_not_paired_keeps_socket (st : GWState) (e : Reject)
    (har : st.autoReconnect = true) :
    (errHasNotPaired e = true →
      (handleChallengeCatch st e).1.status = GatewayStatus.pairing ∧
      (handleChallengeCatch st e).1.ws = st.ws ∧
      (handleChallengeCatch st e).1.autoReconnect = true) ∧
    (errHasNotPaired e = false →
      (handleChallengeCatch st e).1.autoReconnect = false ∧
      (handleChallengeCatch st e).1.ws = none ∧
      (handleChallengeCatch st e).1.status = GatewayStatus.disconnected) ∧
    (∀ fs : List (String × JsonV),
      fs.lookup "code" = some (JsonV.str "NOT_PAIRED") →
      errHasNotPaired (Reject.json (JsonV.obj fs)) = true) ∧
    (∀ fs : List (String × JsonV), ∀ msg : String,
      fs.lookup "message" = some (JsonV.str msg) →
      strIncludes msg "NOT_PAIRED" = true →
      errHasNotPaired (Reject.json (JsonV.obj fs)) = true) := by
  refine ⟨?_, ?_, ?_, ?_⟩
  · intro hnp
    simp [handleChallengeCatch, hnp, emitStatus, har]
  · intro hnp
    simp [handleChallengeCatch, hnp, disconnectClient, emitStatus]
  · intro fs hcode
    simp [errHasNotPaired, hcode]
  · intro fs msg hmsg hinc
    simp [errHasNotPaired, hmsg, hinc]

/-- C2 witness: a NOT_PAIRED code rejection and a plain error. -/
theorem c2_not_paired_keeps_socket_witness :
    stOpenDemo.autoReconnect = true ∧
    (errHasNotPaired
        (Reject.json (JsonV.obj [("code", JsonV.str "NOT_PAIRED")])) = true →
      (handleChallengeCatch stOpenDemo
          (Reject.json (JsonV.obj [("code", JsonV.str "NOT_PAIRED")]))).1.status =
        GatewayStatus.pairing ∧
      (handleChallengeCatch stOpenDemo
          (Reject.json (JsonV.obj [("code", JsonV.str "NOT_PAIRED")]))).1.ws =
        stOpenDemo.ws ∧
      (handleChallengeCatch stOpenDemo
          (Reject.json (JsonV.obj [("code", JsonV.str "NOT_PAIRED")]))).1.autoReconnect =
        true) ∧
    (errHasNotPaired (Reject.errObj "auth failed") = false →
      (handleChallengeCatch stOpenDemo (Reject.errObj "auth failed")).1.autoReconnect =
        false ∧
      (handleChallengeCatch stOpenDemo (Reject.errObj "auth failed")).1.ws = none ∧
      (handleChallengeCatch stOpenDemo (Reject.errObj "auth failed")).1.status =
        GatewayStatus.disconnected) :=
  ⟨rfl,
   (c2_not_paired_keeps_socket stOpenDemo
      (Reject.json (JsonV.obj [("code", JsonV.str "NOT_PAIRED")])) rfl).1,
   (c2_not_paired_keeps_socket stOpenDemo (Reject.errObj "auth failed") rfl).2.1⟩

/-- C4: a reconnect scheduled from `attempts` with random draw `r` is
stored with delay `min(1000 * 2^attempts, 30000) + r * base * 0.3` and
increments the counter; handshake success resets the counter; the first
delay lies in `[1000, 1300)` for `0 ≤ r < 1`; the base is non-decreasing
in the attempt count, and below the 30s cap the jittered delay grows
strictly between successive attempts. -/
theorem c4_reconnect_delay (st : GWState) (r : ℚ)
    (ht : st.reconnectTimer = none) :
    (scheduleReconnect st r =
      { st with
        reconnectTimer := some (min (1000 * 2 ^ st.reconnectAttempts) 30000 +
          r * min (1000 * 2 ^ st.reconnectAttempts) 30000 * (3 / 10)),
        reconnectAttempts := st.reconnectAttempts + 1 }) ∧
    (∀ st' : GWState, (handleChallengeSuccess st').1.reconnectAttempts = 0) ∧
    (0 ≤ r → r < 1 → 1000 ≤ reconnectDelay 0 r ∧ reconnectDelay 0 r < 1300) ∧
    (∀ a b : Nat, a ≤ b → reconnectBase a ≤ reconnectBase b) ∧
    (∀ a : Nat, ∀ r' : ℚ, 0 ≤ r → r < 1 → 0 ≤ r' →
      (1000 * 2 ^ (a + 1) : ℚ) ≤ 30000 →
      reconnectDelay a r < reconnectDelay (a + 1) r') := by
  refine ⟨?_, ?_, ?_, ?_, ?_⟩
  · rw [scheduleReconnect]
    rw [ht]
    rfl
  · intro st'
    simp [handleChallengeSuccess, emitStatus]
  · intro h0 h1
    rw [reconnectDelay, reconnectBase]
    norm_num
    constructor <;> nlinarith
  · intro a b hab
    rw [reconnectBase, reconnectBase]
    exact min_le_min
      (mul_le_mul_of_nonneg_left (pow_le_pow_right₀ one_le_two hab)
        (by norm_num)) le_rfl
  · intro a r' h0 h1 h0' hcap
    have hpow : (0 : ℚ) < 2 ^ a := pow_pos two_pos a
    have hle : (1000 * 2 ^ a : ℚ) ≤ 1000 * 2 ^ (a + 1) := by
      rw [pow_succ]
      nlinarith
    have hba : reconnectBase a = 1000 * 2 ^ a :=
      min_eq_left (le_trans hle hcap)
    have hbb : reconnectBase (a + 1) = 1000 * 2 ^ (a + 1) := min_eq_left hcap
    rw [reconnectDelay, reconnectDelay, hba, hbb, pow_succ]
    nlinarith

/-- C4 witness: a concrete schedule, first-delay bounds at `r = 1/2`,
base monotonicity at `2 ≤ 5`, and strict growth at attempt 1. -/
theorem c4_reconnect_delay_witness :
    (scheduleReconnect stOpenDemo (1 / 2) =
      { stOpenDemo with
        reconnectTimer := some (min (1000 * 2 ^ stOpenDemo.reconnectAttempts) 30000 +
          (1 / 2) * min (1000 * 2 ^ stOpenDemo.reconnectAttempts) 30000 * (3 / 10)),
        reconnectAttempts := stOpenDemo.reconnectAttempts + 1 }) ∧
    (1000 ≤ reconnectDelay 0 (1 / 2) ∧ reconnectDelay 0 (1 / 2) < 1300) ∧
    (reconnectBase 2 ≤ reconnectBase 5) ∧
    (reconnectDelay 1 (1 / 2) < reconnectDelay 2 (1 / 3)) :=
  ⟨(c4_reconnect_delay stOpenDemo (1 / 2) rfl).1,
   (c4_reconnect_delay stOpenDemo (1 / 2) rfl).2.2.1 (by norm_num) (by norm_num),
   (c4_reconnect_delay stOpenDemo (1 / 2) rfl).2.2.2.1 2 5 (by norm_num),
   (c4_reconnect_delay stOpenDemo (1 / 2) rfl).2.2.2.2 1 (1 / 3)
     (by norm_num) (by norm_num) (by norm_num) (by norm_num)⟩

/-- C5: on socket close the status becomes `disconnected`, the socket
and `connected` flag are cleared, every pending request is rejected
with a `disconnected` error, the pending set is emptied, and a
reconnect is scheduled exactly when `autoReconnect` holds. -/
theorem c5_onclose_rejects_pending (st : GWState) (r : ℚ)
    (ht : st.reconnectTimer = none) :
    (onClose st r).1.status = GatewayStatus.disconnected ∧
    (onClose st r).1.connected = false ∧
    (onClose st r).1.ws = none ∧
    (onClose st r).2.1 = st.pending.map
      (fun i => (i, Settlement.rejected (Reject.errObj "disconnected"))) ∧
    (onClose st r).1.pending = [] ∧
    ((onClose st r).1.reconnectTimer.isSome = st.autoReconnect) := by
  by_cases har : st.autoReconnect <;>
    simp [onClose, emitStatus, scheduleReconnect, ht, har]

/-- C5 witness: close with two requests in flight and reconnect on. -/
theorem c5_onclose_rejects_pending_witness :
    stOpenDemo.reconnectTimer = none ∧
    ((onClose stOpenDemo 0).1.status = GatewayStatus.disconnected ∧
     (onClose stOpenDemo 0).1.connected = false ∧
     (onClose stOpenDemo 0).1.ws = none ∧
     (onClose stOpenDemo 0).2.1 = stOpenDemo.pending.map
       (fun i => (i, Settlement.rejected (Reject.errObj "disconnected"))) ∧
     (onClose stOpenDemo 0).1.pending = [] ∧
     ((onClose stOpenDemo 0).1.reconnectTimer.isSome = stOpenDemo.autoReconnect)) :=
  ⟨rfl, c5_onclose_rejects_pending stOpenDemo 0 rfl⟩

/-- Every event other than a `connect()` call preserves the resting
state `disconnect()` establishes. -/
theorem step_preserves_quiesced (st : GWState) (e : GWEvent)
    (hq : quiesced st) (hne : e.isConnectCall = false) :
    quiesced (step st e) := by
  obtain ⟨h1, h2, h3, h4, h5⟩ := hq
  cases e with
  | callConnect => simp [GWEvent.isConnectCall] at hne
  | callDisconnect => simp [step, disconnectClient, emitStatus, quiesced]
  | wsOpen => simp [step, h3, quiesced, h1, h2, h4, h5]
  | wsClose r =>
    simp [step, onClose, emitStatus, scheduleReconnect, quiesced,
          h1, h2, h5]
  | resMsg m => simp [step, h3, quiesced, h1, h2, h4, h5]
  | handshakeOk => simp [step, h3, quiesced, h1, h2, h4, h5]
  | handshakeErr e =>
    by_cases he : errHasNotPaired e <;>
      simp [step, handleChallengeCatch, he, emitStatus, disconnectClient,
            quiesced, h1, h2, h3, h4, h5]
  | timerFire => simp [step, h2, quiesced, h1, h3, h4, h5]
  | callRequest id frame => simp [step, request, h3, quiesced, h1, h2, h4, h5]
  | reqTimeout id =>
    by_cases hp : id ∈ st.pending <;>
      simp [step, onRequestTimeout, hp, quiesced, h1, h2, h3, h4, h5]

/-- The resting state survives any run of non-`connect()` events. -/
theorem runEvents_quiesced (evs : List GWEvent) (st : GWState)
    (hq : quiesced st) (hevs : ∀ e ∈ evs, e.isConnectCall = false) :
    quiesced (runEvents st evs) := by
  induction evs generalizing st with
  | nil => exact hq
  | cons e es ih =>
    exact ih (step st e)
      (step_preserves_quiesced st e hq (hevs e (List.mem_cons_self e es)))
      (fun e' he' => hevs e' (List.mem_cons_of_mem e he'))

/-- C6: `disconnect()` leaves auto-reconnect off, the reconnect timer
cancelled, the attempt counter at zero and the socket closed, and until
a `connect()` call no later event re-enables retries, schedules a
reconnect, or makes `isConnected` true. -/
theorem c6_disconnect_is_final (st : GWState) (evs : List GWEvent)
    (hevs : (evs.all fun e => !e.isConnectCall) = true) :
    quiesced (disconnectClient st).1 ∧
    quiesced (runEvents (disconnectClient st).1 evs) ∧
    (runEvents (disconnectClient st).1 evs).isConnected = false ∧
    (runEvents (disconnectClient st).1 evs).reconnectTimer = none := by
  have hq0 : quiesced (disconnectClient st).1 := by
    simp [disconnectClient, emitStatus, quiesced]
  have hall : ∀ e ∈ evs, e.isConnectCall = false := by
    intro e he
    have := List.all_eq_true.mp hevs e he
    simpa using this
  have hq := runEvents_quiesced evs _ hq0 hall
  exact ⟨hq0, hq, by simpa [GWState.isConnected] using hq.2.2.2.1, hq.2.1⟩

/-- C6 witness: a close, a stray timer fire, a handshake rejection and
a request timeout after `disconnect()`. -/
theorem c6_disconnect_is_final_witness :
    (([GWEvent.wsClose 0, GWEvent.timerFire,
       GWEvent.handshakeErr (Reject.errObj "x"),
       GWEvent.reqTimeout "a"].all fun e => !e.isConnectCall) = true) ∧
    (quiesced (disconnectClient stOpenDemo).1 ∧
     quiesced (runEvents (disconnectClient stOpenDemo).1
       [GWEvent.wsClose 0, GWEvent.timerFire,
        GWEvent.handshakeErr (Reject.errObj "x"),
        GWEvent.reqTimeout "a"]) ∧
     (runEvents (disconnectClient stOpenDemo).1
       [GWEvent.wsClose 0, GWEvent.timerFire,
        GWEvent.handshakeErr (Reject.errObj "x"),
        GWEvent.reqTimeout "a"]).isConnected = false ∧
     (runEvents (disconnectClient stOpenDemo).1
       [GWEvent.wsClose 0, GWEvent.timerFire,
        GWEvent.handshakeErr (Reject.errObj "x"),
        GWEvent.reqTimeout "a"]).reconnectTimer = none) :=
  ⟨rfl,
   c6_disconnect_is_final stOpenDemo
     [GWEvent.wsClose 0, GWEvent.timerFire,
      GWEvent.handshakeErr (Reject.errObj "x"),
      GWEvent.reqTimeout "a"] rfl⟩

/-- C7: a `request()` when the socket is absent or not OPEN rejects
synchronously with a `not connected` error and leaves the state exactly
as it was: no pending entry, no frame written, no timer started. -/
theorem c7_request_rejects_when_not_open (st : GWState) (id frame : String)
    (h : socketOpen st = false) :
    request st id frame =
      (st, ReqOutcome.rejectedNow (Reject.errObj "not connected")) ∧
    (request st id frame).1.pending = st.pending ∧
    (request st id frame).1.reqTimers = st.reqTimers ∧
    (request st id frame).1.ws = st.ws := by
  rcases hws : st.ws with _ | sock
  · simp [request, hws]
  · have hrs : sock.readyState ≠ WsReadyState.opened := by
      intro hc
      rw [socketOpen, hws] at h
      simp [hc] at h
    simp [request, hws, hrs]

/-- C7 witness: a request against a client with no socket. -/
theorem c7_request_rejects_when_not_open_witness :
    socketOpen stIdleDemo = false ∧
    (request stIdleDemo "a" "frame" =
      (stIdleDemo, ReqOutcome.rejectedNow (Reject.errObj "not connected")) ∧
     (request stIdleDemo "a" "frame").1.pending = stIdleDemo.pending ∧
     (request stIdleDemo "a" "frame").1.reqTimers = stIdleDemo.reqTimers ∧
     (request stIdleDemo "a" "frame").1.ws = stIdleDemo.ws) :=
  ⟨rfl, c7_request_rejects_when_not_open stIdleDemo "a" "frame" rfl⟩

/-- C8: a sent request starts a 30000 ms timeout timer; on expiry with
the entry still pending, the entry is removed and its promise rejected
with a `timeout` error; on expiry after the entry is gone, nothing at
all changes. -/
theorem c8_request_timeout_expiry (st : GWState) (id frame : String) :
    requestTimeoutMs = 30000 ∧
    (socketOpen st = true →
      (request st id frame).1.reqTimers = st.reqTimers ++ [(id, 30000)]) ∧
    (id ∈ st.pending →
      onRequestTimeout st id =
        ({ st with pending := st.pending.erase id },
         [(id, Settlement.rejected (Reject.errObj "timeout"))])) ∧
    (id ∉ st.pending → onRequestTimeout st id = (st, [])) := by
  refine ⟨rfl, ?_, ?_, ?_⟩
  · intro h
    rcases hws : st.ws with _ | sock
    · rw [socketOpen, hws] at h
      simp at h
    · have hrs : sock.readyState = WsReadyState.opened := by
        rw [socketOpen, hws] at h
        simpa using h
      simp [request, hws, hrs, requestTimeoutMs]
  · intro hp
    rw [onRequestTimeout, if_pos hp]
  · intro hp
    rw [onRequestTimeout, if_neg hp]

/-- C8 witness: expiry with the entry pending (`a`) and after it is
gone (`z`), and the timer started by a sent request. -/
theorem c8_request_timeout_expiry_witness :
    ("a" ∈ stOpenDemo.pending ∧
      onRequestTimeout stOpenDemo "a" =
        ({ stOpenDemo with pending := stOpenDemo.pending.erase "a" },
         [("a", Settlement.rejected (Reject.errObj "timeout"))])) ∧
    ("z" ∉ stOpenDemo.pending ∧
      onRequestTimeout stOpenDemo "z" = (stOpenDemo, [])) ∧
    (socketOpen stOpenDemo = true ∧
      (request stOpenDemo "c" "frame").1.reqTimers =
        stOpenDemo.reqTimers ++ [("c", 30000)]) :=
  ⟨⟨by decide, (c8_request_timeout_expiry stOpenDemo "a" "frame").2.2.1 (by decide)⟩,
   ⟨by decide, (c8_request_timeout_expiry stOpenDemo "z" "frame").2.2.2 (by decide)⟩,
   ⟨rfl, (c8_request_timeout_expiry stOpenDemo "c" "frame").2.1 rfl⟩⟩

/-- C10 counterexample: with listeners 1 and then 2 registered through
`onStatus` and neither ever unregistered, a status change is delivered
only to listener 2 — listener 1 observes nothing, refuting the claim
that every registered status listener observes every change. -/
theorem c10_counterexample_listener_replaced :
    (disconnectClient (onStatus (onStatus stIdleDemo 1) 2)).2 =
      [(2, GatewayStatus.disconnected)] ∧
    (∀ p ∈ (disconnectClient (onStatus (onStatus stIdleDemo 1) 2)).2,
      p.1 ≠ 1) := by
  constructor
  · rfl
  · decide

/-- C10 amended: `onStatus` holds a single listener slot — registering
replaces any previous listener — and every status change is observed by
exactly the most recently registered listener. -/
theorem c10_single_status_listener (st : GWState) (l1 l2 : Nat)
    (s : GatewayStatus) :
    onStatus (onStatus st l1) l2 = onStatus st l2 ∧
    (emitStatus (onStatus st l2) s).2 = [(l2, s)] :=
  ⟨rfl, rfl⟩

end Pinch
